import Mathlib

/-!
Verification of the Learnoverse video aggregation pipeline.

The development shallowly embeds the two source files of the repository:

* the Express server handler for GET /videos (catalog read, one outbound
  call to the external metadata API, per-item field mapping, error
  translation to a fixed 500 body);
* the React Native client App component (fetch settlement, pull-to-refresh,
  skeleton/error/list rendering, playback overlay signal handlers).

External effects (the MongoDB read, the outbound HTTP call, the fetch to the
server) are passed in as explicit parameters, and the handler additionally
reports how many outbound calls it performed and what it logged.
-/

namespace Learnoverse

/-- JSON-like values, modelling the JS objects the server constructs and
serializes with res.json. -/
inductive Json where
  | str : String → Json
  | arr : List Json → Json
  | obj : List (String × Json) → Json

/-- The field names of a JSON object, in construction order. -/
def Json.keys : Json → List String
  | .obj fs => fs.map Prod.fst
  | _ => []

/-- The element list of a JSON array. -/
def Json.arrElems : Json → List Json
  | .arr xs => xs
  | _ => []

/-- Whether a JSON value is a string literal. -/
def Json.isStrVal : Json → Bool
  | .str _ => true
  | _ => false

/-- Whether a JSON object carries only string-valued fields. -/
def Json.allStrFields : Json → Bool
  | .obj fs => fs.all (fun p => p.2.isStrVal)
  | _ => false

/-- The snippet part of an item of the external metadata API response. -/
structure Snippet where
  title : String
  channelTitle : String
  thumbnailsHighUrl : String
deriving DecidableEq, Repr

/-- The contentDetails part of an item of the external API response. -/
structure ContentDetails where
  duration : String
deriving DecidableEq, Repr

/-- One item of response.data.items of the external metadata API: the raw
record is keyed by the field id, not videoId. -/
structure YoutubeItem where
  id : String
  snippet : Snippet
  contentDetails : ContentDetails
deriving DecidableEq, Repr

/-- The body of a successful external API response (response.data). -/
structure YoutubeResponse where
  items : List YoutubeItem
deriving DecidableEq, Repr

/-- A document of the videos collection; the handler reads only its
videoId field. -/
structure VideoDoc where
  videoId : String
deriving DecidableEq, Repr

/-- The object literal the server builds for each external item: the raw id
field is renamed to videoId, channel data to channelTitle, and the
contentDetails duration is carried along. -/
structure EnrichedVideo where
  videoId : String
  title : String
  channelTitle : String
  thumbnail : String
  duration : String
deriving DecidableEq, Repr

/-- The per-item mapping inside enrichedVideos in the server source. -/
def mkEnrichedVideo (item : YoutubeItem) : EnrichedVideo :=
  { videoId := item.id
    title := item.snippet.title
    channelTitle := item.snippet.channelTitle
    thumbnail := item.snippet.thumbnailsHighUrl
    duration := item.contentDetails.duration }

/-- youtubeItems.map from the server source: every item is mapped, in
order, with no filtering, reordering or deduplication. -/
def enrichedVideos (items : List YoutubeItem) : List EnrichedVideo :=
  items.map mkEnrichedVideo

/-- Serialization of one enriched record, with the field order of the
object literal in the source. -/
def EnrichedVideo.toJson (v : EnrichedVideo) : Json :=
  .obj [("videoId", .str v.videoId), ("title", .str v.title),
        ("channelTitle", .str v.channelTitle), ("thumbnail", .str v.thumbnail),
        ("duration", .str v.duration)]

/-- An HTTP response of the aggregation endpoint. -/
structure HttpResponse where
  status : Nat
  body : Json

/-- The request URL the server builds: part=snippet,contentDetails, the
comma-joined ids, and the API key. -/
def youtubeApiUrl (videoIds key : String) : String :=
  "https://www.googleapis.com/youtube/v3/videos?part=snippet,contentDetails&id="
    ++ videoIds ++ "&key=" ++ key

/-- The fixed body of the catch branch: res.status(500).json with the
message Failed to fetch videos. -/
def failBody : Json := .obj [("message", .str "Failed to fetch videos")]

/-- What one run of the GET /videos handler produces: the HTTP response,
the number of outbound calls made to the external API, and what was
written to the server-side log. -/
structure HandlerOutcome where
  response : HttpResponse
  outboundCalls : Nat
  log : List String

/-- The GET /videos handler. The catalog read and the outbound HTTP call
are passed in: catalogRead is the result of find({}).toArray() (an error
models a store failure, including the connection never having been
established), and httpGet is axios.get keyed by the full request URL (an
error models a non-2xx response, a malformed body, or a network failure).
Any failure falls to the catch branch: a 500 with the fixed body, the
cause logged server side. -/
def getVideosHandler (catalogRead : Except String (List VideoDoc))
    (youtubeApiKey : String)
    (httpGet : String → Except String YoutubeResponse) : HandlerOutcome :=
  match catalogRead with
  | .error e =>
      { response := { status := 500, body := failBody }
        outboundCalls := 0
        log := ["Error fetching videos: " ++ e] }
  | .ok videoDocs =>
      let videoIds := String.intercalate "," (videoDocs.map (·.videoId))
      match httpGet (youtubeApiUrl videoIds youtubeApiKey) with
      | .error e =>
          { response := { status := 500, body := failBody }
            outboundCalls := 1
            log := ["Error fetching videos: " ++ e] }
      | .ok resp =>
          { response := { status := 200
                          body := .arr ((enrichedVideos resp.items).map EnrichedVideo.toJson) }
            outboundCalls := 1
            log := [] }

/-- Modelled from the spec: the maximum batch size of the external metadata
API, the number of ids one outbound call may request. The source has no such
constant because it never splits batches; the call-count formula of the spec
refers to it. -/
def maxBatchSize : Nat := 50

/-- A concrete external API item, used by the concrete scenarios below. -/
def sampleItem : YoutubeItem :=
  { id := "v1"
    snippet := { title := "t", channelTitle := "c", thumbnailsHighUrl := "u" }
    contentDetails := { duration := "PT1M" } }

/-- The record type of the client (the Video type of App.tsx). -/
structure Video where
  videoId : String
  title : String
  channelTitle : String
  thumbnail : String
deriving DecidableEq, Repr

/-- The state hooks of the App component. -/
structure ClientState where
  isSplashVisible : Bool
  videos : List Video
  selectedVideo : Option Video
  isLoading : Bool
  error : Option String
  infoModalVisible : Bool
  refreshing : Bool
deriving DecidableEq, Repr

/-- The useState initial values of App. -/
def initialClientState : ClientState :=
  { isSplashVisible := true
    videos := []
    selectedVideo := none
    isLoading := true
    error := none
    infoModalVisible := false
    refreshing := false }

/-- The error string fetchVideos sets on any failure. -/
def fetchErrorMessage : String := "Failed to fetch videos. Pull down to retry."

/-- The settlement of one fetchVideos call. A successful fetch replaces the
record list and clears the error; any throw (network failure, a non-ok
status, a body that fails to parse) sets the error string and leaves the
record list untouched. The finally block clears isLoading and refreshing
on both paths. -/
def fetchVideosSettle (result : Except String (List Video)) (s : ClientState) : ClientState :=
  match result with
  | .ok data =>
      { s with videos := data, error := none, isLoading := false, refreshing := false }
  | .error _ =>
      { s with error := some fetchErrorMessage, isLoading := false, refreshing := false }

/-- onRefresh: sets the refreshing flag and starts a fetch (whose
settlement arrives later as a fetchVideosSettle step). -/
def onRefresh (s : ClientState) : ClientState := { s with refreshing := true }

/-- closePlayer: clears the selected video, dismissing the overlay. -/
def closePlayer (s : ClientState) : ClientState := { s with selectedVideo := none }

/-- onPlayerStateChange: closes the player exactly when the embedded
player reports the state ended. -/
def onPlayerStateChange (state : String) (s : ClientState) : ClientState :=
  if state = "ended" then closePlayer s else s

/-- A user-facing alert box. -/
structure AlertBox where
  title : String
  message : String
deriving DecidableEq, Repr

/-- The alert onPlayerError shows. -/
def playbackAlert : AlertBox :=
  { title := "Playback Error"
    message := "This video cannot be played. It may be restricted by the owner." }

/-- onPlayerError: shows the fixed alert and closes the overlay. -/
def onPlayerError (s : ClientState) : ClientState × AlertBox :=
  (closePlayer s, playbackAlert)

/-- The externally visible events that drive the App state. -/
inductive ClientEvent where
  | fetchSettled : Except String (List Video) → ClientEvent
  | pullRefresh : ClientEvent
  | selectVideo : Video → ClientEvent
  | closeRequested : ClientEvent
  | playerState : String → ClientEvent
  | playerFailed : ClientEvent
  | splashDone : ClientEvent
  | openInfo : ClientEvent
  | closeInfo : ClientEvent

/-- One step of the App component under an event. -/
def clientStep (s : ClientState) : ClientEvent → ClientState
  | .fetchSettled r => fetchVideosSettle r s
  | .pullRefresh => onRefresh s
  | .selectVideo v => { s with selectedVideo := some v }
  | .closeRequested => closePlayer s
  | .playerState st => onPlayerStateChange st s
  | .playerFailed => (onPlayerError s).1
  | .splashDone => { s with isSplashVisible := false }
  | .openInfo => { s with infoModalVisible := true }
  | .closeInfo => { s with infoModalVisible := false }

/-- What the content area of App renders. -/
inductive ContentView where
  | skeletonList : ContentView
  | errorView : String → ContentView
  | videoList : List Video → Bool → ContentView
deriving DecidableEq, Repr

/-- The conditional render of the content area: the skeleton list while
isLoading, the centered error when an error is set and the list is empty,
and otherwise the video list with the refresh indicator. -/
def renderContent (s : ClientState) : ContentView :=
  if s.isLoading then .skeletonList
  else if s.error.isSome && s.videos.isEmpty then .errorView (s.error.getD "")
  else .videoList s.videos s.refreshing

/-- Unfolding lemma: when the catalog read succeeds and the outbound call
succeeds, the handler returns 200 with the serialized enriched records,
one outbound call, and an empty log. -/
theorem getVideosHandler_ok (docs : List VideoDoc) (key : String)
    (httpGet : String → Except String YoutubeResponse) (resp : YoutubeResponse)
    (h : httpGet (youtubeApiUrl (String.intercalate "," (docs.map (·.videoId))) key)
      = .ok resp) :
    getVideosHandler (.ok docs) key httpGet =
      { response :=
          { status := 200,
            body := .arr ((enrichedVideos resp.items).map EnrichedVideo.toJson) },
        outboundCalls := 1,
        log := [] } := by
  simp only [getVideosHandler]
  rw [h]

/-- Unfolding lemma: when the catalog read succeeds and the outbound call
fails, the handler returns the fixed 500 body after one outbound call and
logs the cause. -/
theorem getVideosHandler_fail (docs : List VideoDoc) (key e : String)
    (httpGet : String → Except String YoutubeResponse)
    (h : httpGet (youtubeApiUrl (String.intercalate "," (docs.map (·.videoId))) key)
      = .error e) :
    getVideosHandler (.ok docs) key httpGet =
      { response := { status := 500, body := failBody },
        outboundCalls := 1,
        log := ["Error fetching videos: " ++ e] } := by
  simp only [getVideosHandler]
  rw [h]

/-- C1: counterexample. With an empty catalog the handler still issues one
outbound call to the external API, not zero as claimed: nothing guards the
empty id list before the request is sent. -/
theorem emptyCatalogStillCallsApi :
    (getVideosHandler (.ok []) "k"
        (fun _ => .ok { items := [] })).outboundCalls ≠ 0 := by
  decide

/-- C1 amended: with an empty id sequence the handler still issues exactly
one outbound call, whose id parameter is the empty string; when the
external API answers that call with an empty item list, the endpoint
responds 200 with an empty JSON array. -/
theorem emptyCatalogResponse (key : String)
    (httpGet : String → Except String YoutubeResponse)
    (h : httpGet (youtubeApiUrl "" key) = .ok { items := [] }) :
    (getVideosHandler (.ok []) key httpGet).outboundCalls = 1 ∧
    (getVideosHandler (.ok []) key httpGet).response.status = 200 ∧
    (getVideosHandler (.ok []) key httpGet).response.body = .arr [] := by
  rw [getVideosHandler_ok [] key httpGet { items := [] } h]
  exact ⟨rfl, rfl, rfl⟩

/-- C1 amended, witness: the empty-catalog scenario at a concrete external
API that answers with no items. -/
theorem emptyCatalogResponse_witness :
    (getVideosHandler (.ok []) "k"
        (fun _ => .ok { items := [] })).outboundCalls = 1 ∧
    (getVideosHandler (.ok []) "k"
        (fun _ => .ok { items := [] })).response.status = 200 ∧
    (getVideosHandler (.ok []) "k"
        (fun _ => .ok { items := [] })).response.body = .arr [] :=
  emptyCatalogResponse "k" (fun _ => .ok { items := [] }) rfl

/-- C6: counterexample. With 51 tracked ids and a maximum batch size of 50,
the claimed call count is 2, but the handler joins all ids into a single
request and issues exactly 1 outbound call. -/
theorem noBatchSplitting :
    ¬ ((getVideosHandler (.ok (List.replicate 51 { videoId := "v" })) "k"
          (fun _ => .ok { items := [] })).outboundCalls
        = ((List.replicate 51 ({ videoId := "v" } : VideoDoc)).length
            + maxBatchSize - 1) / maxBatchSize) := by
  decide

/-- C6 amended: for every catalog size the handler issues exactly one
outbound call, with all ids comma-joined and no batch splitting; when the
external API honours its contract (pairwise-distinct items drawn from the
requested ids), the returned sequence is at most as long as the catalog,
unresolved ids being dropped rather than padded. -/
theorem singleBatchCallCount (docs : List VideoDoc) (key : String)
    (httpGet : String → Except String YoutubeResponse) (resp : YoutubeResponse)
    (hres : httpGet (youtubeApiUrl (String.intercalate "," (docs.map (·.videoId))) key)
      = .ok resp)
    (hnodup : (resp.items.map (·.id)).Nodup)
    (hsub : ∀ it ∈ resp.items, it.id ∈ docs.map (·.videoId)) :
    (getVideosHandler (.ok docs) key httpGet).outboundCalls = 1 ∧
    (getVideosHandler (.ok docs) key httpGet).response.body
      = .arr ((enrichedVideos resp.items).map EnrichedVideo.toJson) ∧
    (enrichedVideos resp.items).length ≤ docs.length := by
  rw [getVideosHandler_ok docs key httpGet resp hres]
  refine ⟨rfl, rfl, ?_⟩
  have hlen : (resp.items.map (·.id)).length ≤ (docs.map (·.videoId)).length := by
    calc (resp.items.map (·.id)).length
        = (resp.items.map (·.id)).toFinset.card :=
          (List.toFinset_card_of_nodup hnodup).symm
      _ ≤ (docs.map (·.videoId)).toFinset.card := by
          refine Finset.card_le_card ?_
          intro x hx
          rw [List.mem_toFinset] at hx ⊢
          obtain ⟨it, hit, rfl⟩ := List.mem_map.mp hx
          exact hsub it hit
      _ ≤ (docs.map (·.videoId)).length := (docs.map (·.videoId)).toFinset_card_le
  simpa [enrichedVideos] using hlen

/-- C6 amended, witness: a two-id catalog whose external API resolves only
one of the ids. -/
theorem singleBatchCallCount_witness :
    (getVideosHandler (.ok [{ videoId := "v1" }, { videoId := "v2" }]) "k"
        (fun _ => .ok { items := [sampleItem] })).outboundCalls = 1 ∧
    (getVideosHandler (.ok [{ videoId := "v1" }, { videoId := "v2" }]) "k"
        (fun _ => .ok { items := [sampleItem] })).response.body
      = .arr ((enrichedVideos [sampleItem]).map EnrichedVideo.toJson) ∧
    (enrichedVideos [sampleItem]).length
      ≤ ([{ videoId := "v1" }, { videoId := "v2" }] : List VideoDoc).length :=
  singleBatchCallCount [{ videoId := "v1" }, { videoId := "v2" }] "k"
    (fun _ => .ok { items := [sampleItem] }) { items := [sampleItem] }
    rfl (by decide) (by decide)

/-- C8: when the catalog read fails, the endpoint answers with status 500 and
performs zero outbound calls to the external metadata API in that request:
the store failure propagates to the catch branch instead of being swallowed
into an empty result. -/
theorem storeFailureNoApiCall (e key : String)
    (httpGet : String → Except String YoutubeResponse) :
    (getVideosHandler (.error e) key httpGet).response.status = 500 ∧
    (getVideosHandler (.error e) key httpGet).outboundCalls = 0 :=
  ⟨rfl, rfl⟩

/-- C4: whatever the store error text, the API key, or the upstream error
text, the failing response is always status 500 with the one fixed body
failBody; the underlying cause appears only in the server-side log, never
in the response. The response is literally a constant, so it carries no
upstream internals and no credential material. -/
theorem errorResponseNoLeak (e key : String) (docs : List VideoDoc)
    (httpGet : String → Except String YoutubeResponse) :
    (getVideosHandler (.error e) key httpGet).response =
      { status := 500, body := failBody } ∧
    (getVideosHandler (.error e) key httpGet).log =
      ["Error fetching videos: " ++ e] ∧
    (getVideosHandler (.ok docs) key (fun _ => .error e)).response =
      { status := 500, body := failBody } ∧
    (getVideosHandler (.ok docs) key (fun _ => .error e)).log =
      ["Error fetching videos: " ++ e] :=
  ⟨rfl, rfl, rfl, rfl⟩

/-- C5: a successful fetch returning the records a, b leaves the loader in
the loaded state with exactly that list in order; a failed refresh after it
sets the error string but still exposes the stale list unchanged, and every
settlement, success or failure, clears both the loading flag and the
refresh-in-progress flag. -/
theorem staleListOnFailedRefresh (s : ClientState) (a b : Video) (e : String)
    (r : Except String (List Video)) :
    (fetchVideosSettle (.ok [a, b]) s).videos = [a, b] ∧
    (fetchVideosSettle (.ok [a, b]) s).error = none ∧
    (fetchVideosSettle (.ok [a, b]) s).isLoading = false ∧
    (fetchVideosSettle (.ok [a, b]) s).refreshing = false ∧
    (fetchVideosSettle (.error e) (onRefresh (fetchVideosSettle (.ok [a, b]) s))).videos
      = [a, b] ∧
    (fetchVideosSettle (.error e) (onRefresh (fetchVideosSettle (.ok [a, b]) s))).error
      = some fetchErrorMessage ∧
    (fetchVideosSettle (.error e) (onRefresh (fetchVideosSettle (.ok [a, b]) s))).refreshing
      = false ∧
    (fetchVideosSettle r s).refreshing = false ∧
    (fetchVideosSettle r s).isLoading = false := by
  refine ⟨rfl, rfl, rfl, rfl, rfl, rfl, rfl, ?_, ?_⟩ <;>
    cases r <;> rfl

/-- C9: the overlay closes when the embedded player reports the state
ended and on no other state-change value; the error signal shows the fixed
user-facing alert and closes the overlay; neither handler ever selects a
video, so closing is terminal for the playback session. -/
theorem playerSignalsCloseOverlay (s : ClientState) (st : String) :
    (onPlayerStateChange "ended" s).selectedVideo = none ∧
    (onPlayerError s).1.selectedVideo = none ∧
    (onPlayerError s).2 = playbackAlert ∧
    (onPlayerStateChange st s =
      if st = "ended" then { s with selectedVideo := none } else s) := by
  refine ⟨rfl, rfl, rfl, ?_⟩
  by_cases h : st = "ended" <;>
    simp [onPlayerStateChange, closePlayer, h]

/-- C2: every record produced by enrichment comes from one item of the raw
external response and carries exactly the id of that item as its videoId;
when the external API only returns items for requested ids (its contract),
every output videoId is one of the requested input ids, so no fabricated or
foreign records appear. -/
theorem enrichPreservesIds (items : List YoutubeItem) (ids : List String)
    (hapi : ∀ it ∈ items, it.id ∈ ids) :
    (∀ r ∈ enrichedVideos items,
      ∃ it ∈ items, r = mkEnrichedVideo it ∧ r.videoId = it.id) ∧
    (∀ r ∈ enrichedVideos items, r.videoId ∈ ids) := by
  constructor
  · intro r hr
    simp only [enrichedVideos] at hr
    obtain ⟨it, hit, rfl⟩ := List.mem_map.mp hr
    exact ⟨it, hit, rfl, rfl⟩
  · intro r hr
    simp only [enrichedVideos] at hr
    obtain ⟨it, hit, rfl⟩ := List.mem_map.mp hr
    exact hapi it hit

/-- C2, witness: a one-item external response against the requested ids
v1 and v2. -/
theorem enrichPreservesIds_witness :
    (∀ r ∈ enrichedVideos [sampleItem],
      ∃ it ∈ [sampleItem], r = mkEnrichedVideo it ∧ r.videoId = it.id) ∧
    (∀ r ∈ enrichedVideos [sampleItem], r.videoId ∈ ["v1", "v2"]) :=
  enrichPreservesIds [sampleItem] ["v1", "v2"] (by decide)

/-- C3: counterexample. The elements of a successful response do not have
exactly the four claimed fields: the handler also carries a fifth field,
duration, taken from contentDetails. -/
theorem responseShapeHasDuration :
    ((getVideosHandler (.ok [{ videoId := "v1" }]) "k"
        (fun _ => .ok { items := [sampleItem] })).response.body.arrElems.map
          Json.keys)
      ≠ [["videoId", "title", "channelTitle", "thumbnail"]] := by
  decide

/-- C3 amended: a successful GET /videos returns 200 with a JSON array of
serialized records whose shape is exactly the five string fields videoId,
title, channelTitle, thumbnail and duration, and any store or upstream
failure returns 500 with the one-field body of shape message: string. -/
theorem responseShapeWithDuration (catalogRead : Except String (List VideoDoc))
    (key : String) (httpGet : String → Except String YoutubeResponse)
    (v : EnrichedVideo) :
    ((∃ vs : List EnrichedVideo,
        (getVideosHandler catalogRead key httpGet).response.status = 200 ∧
        (getVideosHandler catalogRead key httpGet).response.body
          = .arr (vs.map EnrichedVideo.toJson)) ∨
      ((getVideosHandler catalogRead key httpGet).response.status = 500 ∧
       (getVideosHandler catalogRead key httpGet).response.body = failBody)) ∧
    v.toJson.keys = ["videoId", "title", "channelTitle", "thumbnail", "duration"] ∧
    v.toJson.allStrFields = true ∧
    failBody.keys = ["message"] ∧
    failBody.allStrFields = true := by
  refine ⟨?_, rfl, rfl, rfl, rfl⟩
  cases catalogRead with
  | error e => exact Or.inr ⟨rfl, rfl⟩
  | ok docs =>
    cases h : httpGet (youtubeApiUrl (String.intercalate ","
        (docs.map (·.videoId))) key) with
    | error e =>
        rw [getVideosHandler_fail docs key e httpGet h]
        exact Or.inr ⟨rfl, rfl⟩
    | ok resp =>
        rw [getVideosHandler_ok docs key httpGet resp h]
        exact Or.inl ⟨enrichedVideos resp.items, rfl, rfl⟩

/-- C7: on a successful request the endpoint returns exactly the external
item list, mapped in order with no reordering, deduplication or sorting:
the output videoId sequence equals the item id sequence, lengths agree, and
an id the external API did not resolve never appears in the output, with no
placeholder taking its place. -/
theorem outputFollowsApiOrder (docs : List VideoDoc) (key : String)
    (httpGet : String → Except String YoutubeResponse) (resp : YoutubeResponse)
    (hres : httpGet (youtubeApiUrl (String.intercalate ","
        (docs.map (·.videoId))) key) = .ok resp) :
    (getVideosHandler (.ok docs) key httpGet).response.status = 200 ∧
    (getVideosHandler (.ok docs) key httpGet).response.body
      = .arr ((enrichedVideos resp.items).map EnrichedVideo.toJson) ∧
    (enrichedVideos resp.items).map (·.videoId) = resp.items.map (·.id) ∧
    (enrichedVideos resp.items).length = resp.items.length ∧
    (∀ v : String, v ∉ resp.items.map (·.id) →
      v ∉ (enrichedVideos resp.items).map (·.videoId)) := by
  rw [getVideosHandler_ok docs key httpGet resp hres]
  have hids : (enrichedVideos resp.items).map (·.videoId)
      = resp.items.map (·.id) := by
    simp [enrichedVideos, List.map_map, mkEnrichedVideo, Function.comp]
  refine ⟨rfl, rfl, hids, by simp [enrichedVideos], ?_⟩
  intro v hv
  rw [hids]
  exact hv

/-- C7, witness: the end-to-end scenario of the spec, a catalog of v1 and
v2 of which the external API resolves only v1, giving a 200 with a
one-element array and v2 silently absent. -/
theorem outputFollowsApiOrder_witness :
    (getVideosHandler (.ok [{ videoId := "v1" }, { videoId := "v2" }]) "k"
        (fun _ => .ok { items := [sampleItem] })).response.status = 200 ∧
    (getVideosHandler (.ok [{ videoId := "v1" }, { videoId := "v2" }]) "k"
        (fun _ => .ok { items := [sampleItem] })).response.body
      = .arr ((enrichedVideos [sampleItem]).map EnrichedVideo.toJson) ∧
    (enrichedVideos [sampleItem]).map (·.videoId) = [sampleItem].map (·.id) ∧
    (enrichedVideos [sampleItem]).length = [sampleItem].length ∧
    (∀ v : String, v ∉ [sampleItem].map (·.id) →
      v ∉ (enrichedVideos [sampleItem]).map (·.videoId)) :=
  outputFollowsApiOrder [{ videoId := "v1" }, { videoId := "v2" }] "k"
    (fun _ => .ok { items := [sampleItem] }) { items := [sampleItem] } rfl

/-- Helper: once the isLoading flag is false, no client event sets it back
to true; no handler in the source ever calls setIsLoading(true) after
mount. -/
theorem clientStep_keeps_notLoading (s : ClientState) (e : ClientEvent)
    (h : s.isLoading = false) : (clientStep s e).isLoading = false := by
  cases e with
  | fetchSettled r => cases r <;> rfl
  | pullRefresh => exact h
  | selectVideo v => exact h
  | closeRequested => exact h
  | playerState st =>
      by_cases hst : st = "ended" <;>
        simp [clientStep, onPlayerStateChange, closePlayer, hst, h]
  | playerFailed => exact h
  | splashDone => exact h
  | openInfo => exact h
  | closeInfo => exact h

/-- Helper: the isLoading flag stays false across any sequence of client
events. -/
theorem foldl_clientStep_notLoading (evts : List ClientEvent) (s : ClientState)
    (h : s.isLoading = false) : (evts.foldl clientStep s).isLoading = false := by
  induction evts generalizing s with
  | nil => exact h
  | cons e rest ih => exact ih (clientStep s e) (clientStep_keeps_notLoading s e h)

/-- C10: the isLoading flag starts true; the skeleton placeholder list is
rendered exactly while it is true; and after any trace in which the first
fetch has settled, successfully or not, the flag is false and stays false,
so the skeleton is never rendered again — later refreshes render the list
branch with the refresh indicator instead. -/
theorem loadingFlagOneShot (pre post : List ClientEvent)
    (r : Except String (List Video)) :
    initialClientState.isLoading = true ∧
    (∀ s : ClientState, renderContent s = .skeletonList ↔ s.isLoading = true) ∧
    ((pre ++ ClientEvent.fetchSettled r :: post).foldl clientStep
        initialClientState).isLoading = false ∧
    renderContent ((pre ++ ClientEvent.fetchSettled r :: post).foldl clientStep
        initialClientState) ≠ ContentView.skeletonList := by
  have hrender : ∀ s : ClientState,
      renderContent s = .skeletonList ↔ s.isLoading = true := by
    intro s
    cases hs : s.isLoading with
    | true => simp [renderContent, hs]
    | false =>
        simp only [renderContent, hs, Bool.false_eq_true, if_false]
        constructor
        · intro hcontra
          revert hcontra
          split <;> intro hcontra <;> cases hcontra
        · intro hcontra
          cases hcontra
  have hfold : ((pre ++ ClientEvent.fetchSettled r :: post).foldl clientStep
      initialClientState).isLoading = false := by
    rw [List.foldl_append, List.foldl_cons]
    exact foldl_clientStep_notLoading post _ (by cases r <;> rfl)
  refine ⟨rfl, hrender, hfold, ?_⟩
  intro hcontra
  have htrue := (hrender _).mp hcontra
  rw [htrue] at hfold
  cases hfold

end Learnoverse
